import Mathlib

/-!
Verification of the leaflet-scraper core (`src/main.py`,
`ProspektmaschineScraper`): the record extractor `parse_page` and the
validity-period parsing it performs inline.

The markup-parsing library (BeautifulSoup) is an external collaborator:
its selector calls (`select`, `select_one`, `get_text`, attribute access)
are the boundary, so a fragment is modelled by what those calls return —
an optional result per selector, an optional string per attribute.
Everything downstream of that boundary is translated from the source.
-/

namespace Scraper

/-! ## Character classes

Python's `re` classes `\d` and `\w` are Unicode-aware; the texts handled
here (numeric dates, the literal `von`, ASCII filler words) only exercise
the ASCII part, which is what these predicates model. -/

/-- `\d` of the date patterns on line 88/89 of `main.py` (ASCII part). -/
def isDigitCh (c : Char) : Bool := c.isDigit

/-- `\w` of the lead-in `von \w+ ` on line 89 of `main.py` (ASCII part). -/
def isWordCh (c : Char) : Bool := c.isAlphanum || c = '_'

/-! ## The two regular expressions of `parse_page`

Line 88: `re.search(r"(\d{2}\.\d{2}\.\d{4}) - (\d{2}\.\d{2}\.\d{4})", date_text)`
Line 89: `re.search(r"(?:von \w+ )?(\d{2}\.\d{2}\.\d{4})", date_text)`

`re.search` returns the match with the leftmost starting position, trying
pattern alternatives in order at each position.  Both patterns are
implemented directly: a fixed-shape check at each position, scanning
left to right. -/

/-- Match `\d{2}\.\d{2}\.\d{4}` at the head of the character list; on
success return the ten matched characters and the remaining suffix. -/
def dateShape : List Char → Option (List Char × List Char)
  | d1 :: d2 :: '.' :: m1 :: m2 :: '.' :: y1 :: y2 :: y3 :: y4 :: rest =>
    if isDigitCh d1 && isDigitCh d2 && isDigitCh m1 && isDigitCh m2 &&
       isDigitCh y1 && isDigitCh y2 && isDigitCh y3 && isDigitCh y4 then
      some ([d1, d2, '.', m1, m2, '.', y1, y2, y3, y4], rest)
    else none
  | _ => none

/-- Match the range pattern `(\d{2}\.\d{2}\.\d{4}) - (\d{2}\.\d{2}\.\d{4})`
at the head of the list, returning the two captured groups.  The pattern
is fixed-length, so matching at a position is deterministic. -/
def rangeAt (l : List Char) : Option (String × String) :=
  match dateShape l with
  | some (g1, rest) =>
    match rest with
    | ' ' :: '-' :: ' ' :: rest2 =>
      match dateShape rest2 with
      | some (g2, _) => some (g1.asString, g2.asString)
      | none => none
    | _ => none
  | none => none

/-- `re.search` for the range pattern: leftmost position at which
`rangeAt` succeeds (line 88 of `main.py`). -/
def rangeSearch : List Char → Option (String × String)
  | [] => none
  | c :: cs =>
    match rangeAt (c :: cs) with
    | some r => some r
    | none => rangeSearch cs

/-- The alternative `von \w+ ` followed by the date group, tried first at
each position because the optional group `(?:von \w+ )?` is greedy.
`\w+` is greedy with backtracking, but a word character is never the
space the pattern requires next, so only the maximal run of word
characters can be followed by the matching space: no backtracking of
`\w+` can ever succeed, and consuming the maximal run is exact. -/
def singleVonAt : List Char → Option String
  | 'v' :: 'o' :: 'n' :: ' ' :: rest =>
    match rest.takeWhile isWordCh with
    | [] => none
    | _ :: _ =>
      match rest.dropWhile isWordCh with
      | ' ' :: rest2 =>
        match dateShape rest2 with
        | some (g, _) => some g.asString
        | none => none
      | _ => none
  | _ => none

/-- Match `(?:von \w+ )?(\d{2}\.\d{2}\.\d{4})` at the head of the list,
returning group 1: the alternative with the lead-in first, then the bare
date, as Python's regex engine orders them. -/
def singleAt (l : List Char) : Option String :=
  match singleVonAt l with
  | some g => some g
  | none =>
    match dateShape l with
    | some (g, _) => some g.asString
    | none => none

/-- `re.search` for the single-date pattern: leftmost position at which
`singleAt` succeeds (line 89 of `main.py`). -/
def singleSearch : List Char → Option String
  | [] => none
  | c :: cs =>
    match singleAt (c :: cs) with
    | some g => some g
    | none => singleSearch cs

/-- Lines 88–99 of `main.py`: the validity parsing `parse_page` performs
inline on the fragment's date text.  `match_range` wins when it exists;
otherwise `match_single`; otherwise both sides are `"Unknown"`.  The
matched groups are returned as captured — `parse_page` never passes them
through `format_date`. -/
def parseValidity (text : String) : String × String :=
  match rangeSearch text.toList with
  | some (a, b) => (a, b)
  | none =>
    match singleSearch text.toList with
    | some d => (d, "Unknown")
    | none => ("Unknown", "Unknown")

/-! ## The record extractor `parse_page` (lines 51–113 of `main.py`)

A `Fragment` is one `.brochure-thumb` tile, seen through the selector
boundary: each field records what the corresponding BeautifulSoup call
yields on this tile.

* `title_tag`: the stripped text of `select_one(".grid-item-content strong")`,
  `none` when the selector finds nothing.
* `img_tag`: the node found by `select_one(".img-container img")`, carrying
  its `src` and `data-src` attributes (`Tag.get` returns `None` for an
  absent attribute, modelled by `none`).
* `shop_tag`: the node found by `select_one(".grid-logo img")`, carrying
  its `alt` attribute.
* `date_hidden` / `date_visible`: the stripped text of
  `select_one(".grid-item-content small.hidden-sm")` and
  `select_one(".grid-item-content small.visible-sm")`.  A found tag object
  is always truthy in BeautifulSoup, so `or` on line 83 keeps the first
  tag that exists, whatever its text. -/

structure ImgTag where
  src : Option String
  data_src : Option String
deriving Repr, DecidableEq

structure ShopTag where
  alt : Option String
deriving Repr, DecidableEq

structure Fragment where
  title_tag : Option String
  img_tag : Option ImgTag
  shop_tag : Option ShopTag
  date_hidden : Option String
  date_visible : Option String
deriving Repr, DecidableEq

/-- One element of the list `parse_page` builds (lines 104–111). -/
structure LeafletEntry where
  title : String
  thumbnail : String
  shop_name : String
  valid_from : String
  valid_to : String
  parsed_time : String
deriving Repr, DecidableEq

/-- Line 69: `title_tag.get_text(strip=True) if title_tag else "Unknown"`. -/
def resolveTitle (item : Fragment) : String :=
  match item.title_tag with
  | some t => t
  | none => "Unknown"

/-- Line 73: `img_tag.get("src") or img_tag.get("data-src", "") if img_tag
else ""`.  Python's conditional expression binds loosest, so the `or`
chain is evaluated only when `img_tag` exists; `or` keeps its left operand
only when it is truthy, and an absent `src` (`None`) and an empty-string
`src` are both falsy, so both fall through to `get("data-src", "")`. -/
def resolveThumbnail (item : Fragment) : String :=
  match item.img_tag with
  | some img =>
    match img.src with
    | some v => if v = "" then img.data_src.getD "" else v
    | none => img.data_src.getD ""
  | none => ""

/-- The `.replace("Logo ", "")` call of line 77: `str.replace` substitutes
every non-overlapping occurrence, scanning left to right and continuing
after each match; here the replacement is empty, so matches are dropped. -/
def dropLogoAll : List Char → List Char
  | 'L' :: 'o' :: 'g' :: 'o' :: ' ' :: rest => dropLogoAll rest
  | c :: cs => c :: dropLogoAll cs
  | [] => []

/-- Line 77: `shop_tag["alt"].replace("Logo ", "") if shop_tag else
"Unknown"`.  Subscripting a tag with an absent attribute raises
`KeyError`, modelled as `Except.error`. -/
def resolveShopName (item : Fragment) : Except String String :=
  match item.shop_tag with
  | some tag =>
    match tag.alt with
    | some a => .ok (dropLogoAll a.toList).asString
    | none => .error "KeyError: alt"
  | none => .ok "Unknown"

/-- Lines 83–84: `select_one(... hidden-sm) or select_one(... visible-sm)`,
then `get_text(strip=True)` if a tag was found, else `""`. -/
def resolveDateText (item : Fragment) : String :=
  match item.date_hidden with
  | some t => t
  | none =>
    match item.date_visible with
    | some t => t
    | none => ""

/-- Lines 65–111, the loop body for one tile: resolve the four fields,
parse the validity text, and build the dictionary appended to the list.
The only fallible step is the `alt` subscript inside `resolveShopName`;
its `KeyError` aborts the entry (and the whole loop). -/
def resolveEntry (item : Fragment) (now : String) : Except String LeafletEntry :=
  match resolveShopName item with
  | .error e => .error e
  | .ok shop =>
    let dates := parseValidity (resolveDateText item)
    .ok { title := resolveTitle item
          thumbnail := resolveThumbnail item
          shop_name := shop
          valid_from := dates.1
          valid_to := dates.2
          parsed_time := now }

/-- `parse_page` after the selector boundary: `soup.select(".brochure-thumb")`
yields the tiles in document order; the loop processes them in that order,
appending one entry each, and an exception raised while processing a tile
propagates out of the whole call.  `now` is `datetime.now()` formatted on
line 59, computed once before the loop; wall-clock time is external input,
so it is a parameter here. -/
def parsePage : List Fragment → String → Except String (List LeafletEntry)
  | [], _ => .ok []
  | item :: rest, now =>
    match resolveEntry item now with
    | .error e => .error e
    | .ok entry =>
      match parsePage rest now with
      | .error e => .error e
      | .ok entries => .ok (entry :: entries)

/-- Occurrence test for the literal `"Logo "`, the pattern of the
`replace` call on line 77: true exactly when some suffix of the list
starts with it. -/
def containsLogo : List Char → Bool
  | 'L' :: 'o' :: 'g' :: 'o' :: ' ' :: _ => true
  | _ :: cs => containsLogo cs
  | [] => false

/-- On text with no occurrence of `"Logo "`, the `replace` call of
line 77 is the identity. -/
theorem dropLogoAll_id (r : List Char) (h : containsLogo r = false) :
    dropLogoAll r = r := by
  induction r using dropLogoAll.induct with
  | case1 rest ih => simp [containsLogo] at h
  | case2 c cs hne ih =>
    rw [containsLogo] at h
    · rw [dropLogoAll]
      · rw [ih h]
      · exact hne
    · exact hne
  | case3 => rfl

end Scraper

/-! ## Claims -/

/-- C1: the claim states that on the validity text
`"01.01.2025 - 15.01.2025"` extraction returns the ISO-normalized pair
`("2025-01-01", "2025-01-15")`.  The code does not: on lines 93–94 of
`main.py` the two captured `DD.MM.YYYY` tokens are returned raw —
`parse_page` never calls `format_date`, although the comment above the
block says "I use my functions to format the date" and `format_date`
exists for exactly this purpose.  This theorem evaluates the embedded
code at the claimed input and exhibits the divergence. -/
theorem range_tokens_returned_raw :
    Scraper.parseValidity "01.01.2025 - 15.01.2025" =
      ("01.01.2025", "15.01.2025") ∧
    (("01.01.2025", "15.01.2025") : String × String) ≠
      ("2025-01-01", "2025-01-15") :=
  ⟨rfl, by decide⟩

/-- C2: the claim states that the shape-valid but calendar-invalid text
`"32.13.2025"` resolves to `("Unknown", "Unknown")` because normalization
rejects it.  The code never normalizes: the single-date pattern on line 89
matches the digit shape, and line 96 returns the token raw, so the result
is `("32.13.2025", "Unknown")` and the invalid calendar date does appear
in the output.  This theorem evaluates the embedded code at the claimed
input and exhibits the divergence. -/
theorem invalid_calendar_date_kept :
    Scraper.parseValidity "32.13.2025" = ("32.13.2025", "Unknown") ∧
    (("32.13.2025", "Unknown") : String × String) ≠ ("Unknown", "Unknown") :=
  ⟨rfl, by decide⟩

/-- C3: the claim states that `"von Montag 03.02.2025"` resolves to
`("2025-02-03", "Unknown")`.  The code discards the `von <word> ` lead-in
as claimed and sets `valid_to` to `"Unknown"`, but returns the captured
token `"03.02.2025"` raw — `parse_page` never calls `format_date`, so no
ISO form is produced.  This theorem evaluates the embedded code at the
claimed input and exhibits the divergence. -/
theorem single_date_token_returned_raw :
    Scraper.parseValidity "von Montag 03.02.2025" = ("03.02.2025", "Unknown") ∧
    (("03.02.2025", "Unknown") : String × String) ≠ ("2025-02-03", "Unknown") :=
  ⟨rfl, by decide⟩

/-- C4: pattern precedence of lines 88–99.  Whenever the range pattern
matches, both sides come from the two captured range tokens; the
single-date rule, which sets `valid_to` to `"Unknown"`, decides the
result only when the range pattern found no match; and when neither
pattern matches, both sides are `"Unknown"`. -/
theorem validity_pattern_precedence (t : String) :
    (∀ a b, Scraper.rangeSearch t.toList = some (a, b) →
      Scraper.parseValidity t = (a, b)) ∧
    (Scraper.rangeSearch t.toList = none →
      ∀ d, Scraper.singleSearch t.toList = some d →
        Scraper.parseValidity t = (d, "Unknown")) ∧
    (Scraper.rangeSearch t.toList = none → Scraper.singleSearch t.toList = none →
      Scraper.parseValidity t = ("Unknown", "Unknown")) := by
  refine ⟨?_, ?_, ?_⟩
  · intro a b h
    have h1 : Scraper.rangeSearch t.data = some (a, b) := h
    simp [Scraper.parseValidity, h1]
  · intro h d h2
    have h1 : Scraper.rangeSearch t.data = none := h
    have h3 : Scraper.singleSearch t.data = some d := h2
    simp [Scraper.parseValidity, h1, h3]
  · intro h h2
    have h1 : Scraper.rangeSearch t.data = none := h
    have h3 : Scraper.singleSearch t.data = none := h2
    simp [Scraper.parseValidity, h1, h3]

/-- Witness for C4: each of the three branches applied at a concrete
validity text. -/
theorem validity_pattern_precedence_witness :
    Scraper.parseValidity "05.04.2025 - 12.04.2025" =
      ("05.04.2025", "12.04.2025") ∧
    Scraper.parseValidity "ab 07.04.2025" = ("07.04.2025", "Unknown") ∧
    Scraper.parseValidity "diese Woche" = ("Unknown", "Unknown") :=
  ⟨(validity_pattern_precedence _).1 _ _ (by decide),
   (validity_pattern_precedence _).2.1 (by decide) _ (by decide),
   (validity_pattern_precedence _).2.2 (by decide) (by decide)⟩

/-- C5: the claim states that field resolution is total whatever nodes or
attributes are missing.  It is not: line 77 subscripts the logo image
node with `["alt"]`, which raises `KeyError` when the node exists but
carries no `alt` attribute — the one field access in the loop without a
guard, contradicting the comment "For every data that it can't find it
sets it to Unknown".  First conjunct: a fragment whose logo image lacks
`alt` makes entry resolution raise instead of yielding an entry.  Second
conjunct: the fully-absent fragment of the claim's "in particular" part
does yield the fully-defaulted entry. -/
theorem alt_subscript_raises :
    Scraper.resolveEntry ⟨none, none, some ⟨none⟩, none, none⟩
        "2025-03-21 10:00:00" = Except.error "KeyError: alt" ∧
    Scraper.resolveEntry ⟨none, none, none, none, none⟩ "2025-03-21 10:00:00" =
      Except.ok ⟨"Unknown", "", "Unknown", "Unknown", "Unknown",
        "2025-03-21 10:00:00"⟩ :=
  ⟨rfl, rfl⟩

/-- Counterexample to C6: a fragment whose image node has the direct
source attribute present but empty (`src=""`) and a lazy-load attribute
`data-src`.  The claim says the thumbnail equals the direct source
attribute whenever that attribute is present, i.e. `""` here; the code
yields the lazy-load value instead, because `or` on line 73 treats the
falsy empty string like an absent attribute. -/
theorem thumbnail_empty_src_counterexample :
    Scraper.resolveThumbnail
        ⟨none, some ⟨some "", some "https://img.example/lazy.jpg"⟩,
         none, none, none⟩ = "https://img.example/lazy.jpg" ∧
    ("https://img.example/lazy.jpg" : String) ≠ "" :=
  ⟨rfl, by decide⟩

/-- C6 as amended: the thumbnail equals the direct source attribute when
that attribute is present *and non-empty*; the lazy-load attribute's
value (defaulting to `""` when it too is absent) is used when the direct
attribute is absent or present-but-empty; and the thumbnail is `""` when
there is no image node. -/
theorem thumbnail_fallback_amended (f : Scraper.Fragment) :
    (f.img_tag = none → Scraper.resolveThumbnail f = "") ∧
    ∀ img, f.img_tag = some img →
      (∀ v, img.src = some v → v ≠ "" → Scraper.resolveThumbnail f = v) ∧
      ((img.src = none ∨ img.src = some "") →
        Scraper.resolveThumbnail f = img.data_src.getD "") := by
  refine ⟨?_, ?_⟩
  · intro h
    simp [Scraper.resolveThumbnail, h]
  · intro img h
    refine ⟨?_, ?_⟩
    · intro v hv hne
      simp [Scraper.resolveThumbnail, h, hv, hne]
    · rintro (h0 | h0) <;> simp [Scraper.resolveThumbnail, h, h0]

/-- Witness for C6 as amended: a present non-empty direct source wins
over the lazy-load attribute. -/
theorem thumbnail_fallback_amended_witness :
    Scraper.resolveThumbnail
        ⟨none, some ⟨some "direct.jpg", some "lazy.jpg"⟩, none, none, none⟩ =
      "direct.jpg" :=
  ((thumbnail_fallback_amended _).2 _ rfl).1 _ rfl (by decide)

/-- Counterexample to C7: the claim says the fixed literal `"Logo "` is
stripped as a prefix, the text after it otherwise unchanged, so alt text
`"Logo Logo Akcia"` would give `"Logo Akcia"`.  The code's
`.replace("Logo ", "")` on line 77 removes every occurrence, yielding
`"Akcia"`. -/
theorem shop_name_replace_counterexample :
    Scraper.resolveShopName ⟨none, none, some ⟨some "Logo Logo Akcia"⟩,
        none, none⟩ = Except.ok "Akcia" ∧
    ("Akcia" : String) ≠ "Logo Akcia" :=
  ⟨rfl, by decide⟩

/-- C7 as amended: `shop_name` is the logo image node's `alt` text with
*every* occurrence of the literal `"Logo "` removed, not only a leading
prefix; in particular, when `"Logo "` occurs in the alt text only as its
leading prefix, the result is the alt text with that prefix stripped and
the remainder unchanged; and `shop_name` is `"Unknown"`, without raising,
when the fragment has no logo image node. -/
theorem shop_name_amended (f : Scraper.Fragment) :
    (f.shop_tag = none → Scraper.resolveShopName f = Except.ok "Unknown") ∧
    ∀ a, f.shop_tag = some ⟨some a⟩ →
      Scraper.resolveShopName f =
        Except.ok (Scraper.dropLogoAll a.toList).asString ∧
      ∀ r : String, a = "Logo " ++ r → Scraper.containsLogo r.toList = false →
        Scraper.resolveShopName f = Except.ok r := by
  refine ⟨?_, ?_⟩
  · intro h
    simp [Scraper.resolveShopName, h]
  · intro a h
    refine ⟨by simp [Scraper.resolveShopName, h], ?_⟩
    intro r hr hnc
    subst hr
    have hl : ("Logo " ++ r).toList = 'L' :: 'o' :: 'g' :: 'o' :: ' ' :: r.toList := by
      show ("Logo " ++ r).data = _
      rw [String.data_append]
      rfl
    simp only [Scraper.resolveShopName, h]
    rw [hl]
    rw [show Scraper.dropLogoAll ('L' :: 'o' :: 'g' :: 'o' :: ' ' :: r.toList) =
        Scraper.dropLogoAll r.toList from rfl]
    rw [Scraper.dropLogoAll_id r.toList hnc, String.asString_toList]

/-- Witness for C7 as amended: alt text `"Logo Lidl"` yields `"Lidl"`,
and a fragment without a logo node yields `"Unknown"`. -/
theorem shop_name_amended_witness :
    Scraper.resolveShopName ⟨none, none, some ⟨some "Logo Lidl"⟩, none, none⟩ =
      Except.ok "Lidl" ∧
    Scraper.resolveShopName ⟨none, none, none, none, none⟩ =
      Except.ok "Unknown" :=
  ⟨((shop_name_amended _).2 _ rfl).2 "Lidl" (by decide) (by decide),
   (shop_name_amended _).1 rfl⟩

/-- An entry produced by the loop body carries the `now` value that was
passed in: line 110 stores `now` unchanged in `parsed_time`. -/
theorem parsed_time_of_resolveEntry {item : Scraper.Fragment} {now : String}
    {e : Scraper.LeafletEntry}
    (h : Scraper.resolveEntry item now = Except.ok e) : e.parsed_time = now := by
  unfold Scraper.resolveEntry at h
  cases hs : Scraper.resolveShopName item with
  | error msg => rw [hs] at h; cases h
  | ok shop => rw [hs] at h; cases h; rfl

/-- C8: `now` is computed once, on line 59, before the extraction loop,
and line 110 copies it into every entry, so within one run every produced
entry carries the same `parsed_time`, namely that run's timestamp. -/
theorem parsed_time_shared (tiles : List Scraper.Fragment) (now : String)
    (entries : List Scraper.LeafletEntry) (e : Scraper.LeafletEntry)
    (h1 : Scraper.parsePage tiles now = Except.ok entries)
    (h2 : e ∈ entries) : e.parsed_time = now := by
  induction tiles generalizing entries with
  | nil =>
    simp only [Scraper.parsePage, Except.ok.injEq] at h1
    subst h1
    cases h2
  | cons item rest ih =>
    unfold Scraper.parsePage at h1
    cases he : Scraper.resolveEntry item now with
    | error msg => rw [he] at h1; cases h1
    | ok entry =>
      rw [he] at h1
      cases hr : Scraper.parsePage rest now with
      | error msg => rw [hr] at h1; cases h1
      | ok es =>
        rw [hr] at h1
        cases h1
        rcases List.mem_cons.mp h2 with h | h
        · subst h
          exact parsed_time_of_resolveEntry he
        · exact ih es hr h

/-- Witness for C8: on a two-tile document, the second entry carries the
run timestamp that was passed in. -/
theorem parsed_time_shared_witness :
    (⟨"Unknown", "", "Unknown", "Unknown", "Unknown",
      "2025-03-21 09:00:00"⟩ : Scraper.LeafletEntry).parsed_time =
      "2025-03-21 09:00:00" :=
  parsed_time_shared
    [⟨some "Leaflet A", none, none, some "05.05.2025 - 11.05.2025", none⟩,
     ⟨none, none, none, none, none⟩]
    "2025-03-21 09:00:00"
    [⟨"Leaflet A", "", "Unknown", "05.05.2025", "11.05.2025",
      "2025-03-21 09:00:00"⟩,
     ⟨"Unknown", "", "Unknown", "Unknown", "Unknown", "2025-03-21 09:00:00"⟩]
    _ rfl (by simp)

/-- C9: the claim states that every document yields exactly one entry per
matched tile, in document order, with no dropping.  On a document whose
second tile has a logo image without an `alt` attribute, the `KeyError`
of line 77 propagates out of `parse_page`: the call yields no entries at
all — both tiles are dropped, including the first, well-formed one — so
the claim fails on this input.  On documents where the `alt` subscript
does not raise, the loop does append exactly one entry per tile in
document order. -/
theorem exception_drops_all_entries :
    Scraper.parsePage
      [⟨some "Tile one", none, none, some "10.03.2025 - 16.03.2025", none⟩,
       ⟨some "Tile two", none, some ⟨none⟩, none, none⟩]
      "2025-03-21 08:00:00" = Except.error "KeyError: alt" := rfl

/-- C10: when the image node's direct source attribute is present but
empty, line 73's `or` treats it like an absent one: the thumbnail is the
lazy-load attribute's value, or `""` when that is also absent. -/
theorem empty_src_treated_as_absent (f : Scraper.Fragment)
    (img : Scraper.ImgTag) (h1 : f.img_tag = some img)
    (h2 : img.src = some "") :
    Scraper.resolveThumbnail f = img.data_src.getD "" := by
  simp [Scraper.resolveThumbnail, h1, h2]

/-- Witness for C10: `src=""` together with `data-src="lazy-7.png"`
yields `"lazy-7.png"`. -/
theorem empty_src_treated_as_absent_witness :
    Scraper.resolveThumbnail
      ⟨none, some ⟨some "", some "lazy-7.png"⟩, none, none, none⟩ =
      "lazy-7.png" :=
  empty_src_treated_as_absent
    ⟨none, some ⟨some "", some "lazy-7.png"⟩, none, none, none⟩
    ⟨some "", some "lazy-7.png"⟩ rfl rfl
